import Mathlib

/-!
# Navigation guard of the chat front end (`frontend/src/router.js`)

A shallow embedding of the `router.beforeEach` guard.  The guard is stateful
JavaScript: it reads `localStorage` and reports its decision by calling the
completion callback `next`.  The embedding threads an explicit heap that holds
the two route objects, the storage and a trace of the observable events
(storage reads and `next` invocations), so that frame and effect properties
can be stated next to the functional ones.
-/

namespace Router

/-- The JavaScript values the guard handles: `undefined` (a missing property),
`null` (a missing storage key) and strings. -/
inductive JsVal where
  | undefined : JsVal
  | null : JsVal
  | str : String → JsVal
  deriving DecidableEq, Repr

/-- JavaScript `ToBoolean`: `undefined`, `null` and `""` are falsy, every other
string is truthy. -/
def JsVal.toBoolean : JsVal → Bool
  | .undefined => false
  | .null => false
  | .str s => !(s == "")

/-- JavaScript strict equality `===` on the modelled values. -/
def JsVal.strictEq : JsVal → JsVal → Bool
  | .undefined, .undefined => true
  | .null, .null => true
  | .str a, .str b => a == b
  | _, _ => false

/-- JavaScript `ToString`, as applied to a template-literal substitution. -/
def JsVal.toJsString : JsVal → String
  | .undefined => "undefined"
  | .null => "null"
  | .str s => s

/-- `String.prototype.startsWith(searchString)`. -/
def startsWith (s searchString : String) : Bool :=
  searchString.data.isPrefixOf s.data

/-- A resolved route location, as handed to a navigation guard: its `path` and
its `params` object (segment name, value). -/
structure RouteLocation where
  path : String
  params : List (String × String)
  deriving DecidableEq, Repr

/-- Property access `params.username`: `undefined` when the object has no such
entry. -/
def RouteLocation.username (r : RouteLocation) : JsVal :=
  match r.params.lookup "username" with
  | none => .undefined
  | some v => .str v

/-- The argument object `{ path: ... }` passed to `next` for a redirect. -/
structure RouteLocationRaw where
  path : String
  deriving DecidableEq, Repr

/-- Observable events of one run of the guard. -/
inductive Event where
  | getItem : String → Event
  | next : Option RouteLocationRaw → Event
  deriving DecidableEq, Repr

/-- The state the guard runs in: the objects bound to the parameters `to` and
`from` (named `to_` and `from_` here, both being reserved words), the content
of `localStorage`, and the trace of events so far. -/
structure Heap where
  to_ : RouteLocation
  from_ : RouteLocation
  localStorage : List (String × String)
  trace : List Event
  deriving DecidableEq, Repr

/-- `localStorage.getItem(key)`: `null` for a missing key; the read is
recorded in the trace. -/
def localStorage_getItem (key : String) : StateM Heap JsVal := do
  let h ← get
  set { h with trace := h.trace ++ [Event.getItem key] }
  match h.localStorage.lookup key with
  | none => return JsVal.null
  | some v => return JsVal.str v

/-- The completion callback `next`, recording its argument in the trace.
A bare `next()` is `next none`; `next` applied to the object `{ path: p }` is
`next (some ⟨p⟩)`. -/
def next (arg : Option RouteLocationRaw) : StateM Heap Unit :=
  modify fun h => { h with trace := h.trace ++ [Event.next arg] }

/-- The guard registered with `router.beforeEach((to, from, next) => ...)`. -/
def beforeEach : StateM Heap Unit := do
  let to_ := (← get).to_
  if startsWith to_.path "/chat" then
    let usernameParam := to_.username
    let saved ← localStorage_getItem "username"
    if (!usernameParam.toBoolean || usernameParam.strictEq (.str "")) && !saved.toBoolean then
      return (← next (some { path := "/" }))
    -- If no param but saved username exists, redirect to that chat path
    if (!usernameParam.toBoolean || usernameParam.strictEq (.str "")) && saved.toBoolean then
      return (← next (some { path := "/chat/" ++ saved.toJsString }))
  next none

/-- The decision a call of `next` stands for. -/
inductive GuardDecision where
  | Proceed : GuardDecision
  | RedirectTo : String → GuardDecision
  deriving DecidableEq, Repr

/-- Reading of a `next` argument as a decision: a bare `next()` proceeds, a
location object redirects to its path. -/
def GuardDecision.ofArg : Option RouteLocationRaw → GuardDecision
  | none => .Proceed
  | some r => .RedirectTo r.path

/-- The decisions recorded in a trace, in order. -/
def decisions : List Event → List GuardDecision
  | [] => []
  | Event.next a :: t => GuardDecision.ofArg a :: decisions t
  | Event.getItem _ :: t => decisions t

/-- The storage keys read in a trace, in order. -/
def reads : List Event → List String
  | [] => []
  | Event.getItem k :: t => k :: reads t
  | Event.next _ :: t => reads t

/-- One evaluation of the guard from a fresh trace. -/
def evaluate (to_ from_ : RouteLocation) (localStorage : List (String × String)) : Heap :=
  (beforeEach.run { to_ := to_, from_ := from_, localStorage := localStorage, trace := [] }).2

/-- Argument handed to `next` on a chat path, as a function of the two values
the guard inspects (a summary of the guard body used by the proofs). -/
def chatArg (usernameParam saved : JsVal) : Option RouteLocationRaw :=
  if (!usernameParam.toBoolean || usernameParam.strictEq (.str "")) && !saved.toBoolean then
    some { path := "/" }
  else if (!usernameParam.toBoolean || usernameParam.strictEq (.str "")) && saved.toBoolean then
    some { path := "/chat/" ++ saved.toJsString }
  else none

/-- Value returned by `localStorage.getItem(key)` on a given storage. -/
def storedItem (localStorage : List (String × String)) (key : String) : JsVal :=
  match localStorage.lookup key with
  | none => JsVal.null
  | some v => JsVal.str v

/-- A value that the guard treats as "not supplied" / "not present": a missing
entry or the empty string. -/
def notPresent (o : Option String) : Prop := o = none ∨ o = some ""

/-- Two optional strings that are equal, or differ only in the way absence is
written (missing entry against empty string). -/
def sameUpToAbsence (a b : Option String) : Prop := a = b ∨ (notPresent a ∧ notPresent b)

/-- The view components imported by `router.js`. -/
inductive Component where
  | LoginForm : Component
  | RegisterForm : Component
  | ChatView : Component
  deriving DecidableEq, Repr

/-- A record of the `routes` array; `props` is `none` where the record has no
`props` field. -/
structure RouteRecord where
  path : String
  component : Component
  props : Option Bool
  deriving DecidableEq, Repr

/-- The `routes` array of `router.js`. -/
def routes : List RouteRecord :=
  [ { path := "/", component := Component.LoginForm, props := none },
    { path := "/register", component := Component.RegisterForm, props := none },
    { path := "/chat/:username", component := Component.ChatView, props := some true } ]

/-- The pieces of a path that stand between its slashes. -/
def splitSlash : List Char → List (List Char)
  | [] => [[]]
  | c :: cs =>
    if c = '/' then [] :: splitSlash cs
    else
      match splitSlash cs with
      | [] => [[c]]
      | seg :: rest => (c :: seg) :: rest

/-- Modelled from the spec: the names of the dynamic segments of a path pattern,
a dynamic segment being a piece written `:name`.  The pattern syntax belongs to
the routing runtime, which is not part of the sources. -/
def dynamicSegments (pattern : String) : List String :=
  (splitSlash pattern.data).filterMap fun seg =>
    match seg with
    | ':' :: name => some (String.mk name)
    | _ => none

/-- Modelled from the spec: matching of a path against the chat route's pattern
`/chat/:username`, that is "/chat/" followed by one non-empty segment; the
result is the matched segment.  The matcher belongs to the routing runtime,
which is not part of the sources. -/
def matchChatPattern (path : String) : Option String :=
  if startsWith path "/chat/" then
    let seg := path.data.drop 6
    if seg ≠ [] ∧ '/' ∉ seg then some (String.mk seg) else none
  else none

theorem beforeEach_run_other (h : Heap) (hp : startsWith h.to_.path "/chat" = false) :
    (beforeEach.run h).2 = { h with trace := h.trace ++ [Event.next none] } := by
  simp [beforeEach, hp, next, StateT.run, bind, StateT.bind, get, getThe, MonadStateOf.get,
    StateT.get, pure, StateT.pure, modify, modifyGet, MonadStateOf.modifyGet, StateT.modifyGet]

theorem beforeEach_run_chat (h : Heap) (hp : startsWith h.to_.path "/chat" = true) :
    (beforeEach.run h).2 = { h with trace := h.trace ++ [Event.getItem "username",
      Event.next (chatArg h.to_.username (storedItem h.localStorage "username"))] } := by
  cases hl : h.localStorage.lookup "username" <;>
    by_cases c1 : (!h.to_.username.toBoolean || h.to_.username.strictEq (.str "")) = true <;>
    simp [beforeEach, hp, next, StateT.run, bind, StateT.bind, get, getThe, MonadStateOf.get,
      StateT.get, pure, StateT.pure, modify, modifyGet, MonadStateOf.modifyGet,
      StateT.modifyGet, localStorage_getItem, set, StateT.set, chatArg, storedItem, hl, c1] <;>
    split_ifs <;>
    simp_all [bind, StateT.bind, pure, StateT.pure, StateT.modifyGet]

theorem evaluate_other (to_ from_ : RouteLocation) (ls : List (String × String))
    (hp : startsWith to_.path "/chat" = false) :
    evaluate to_ from_ ls =
      { to_ := to_, from_ := from_, localStorage := ls, trace := [Event.next none] } := by
  unfold evaluate
  rw [beforeEach_run_other _ hp]
  rfl

theorem evaluate_chat (to_ from_ : RouteLocation) (ls : List (String × String))
    (hp : startsWith to_.path "/chat" = true) :
    evaluate to_ from_ ls =
      { to_ := to_, from_ := from_, localStorage := ls,
        trace := [Event.getItem "username",
          Event.next (chatArg to_.username (storedItem ls "username"))] } := by
  unfold evaluate
  rw [beforeEach_run_chat _ hp]
  rfl

theorem decisions_append (a b : List Event) :
    decisions (a ++ b) = decisions a ++ decisions b := by
  induction a with
  | nil => rfl
  | cons e t ih => cases e <;> simp [decisions, ih]

theorem reads_append (a b : List Event) : reads (a ++ b) = reads a ++ reads b := by
  induction a with
  | nil => rfl
  | cons e t ih => cases e <;> simp [reads, ih]

/-- A supplied (non-empty) parameter makes both tests of the guard fail. -/
theorem chatArg_supplied (u : String) (hne : u ≠ "") (saved : JsVal) :
    chatArg (JsVal.str u) saved = none := by
  simp [chatArg, JsVal.toBoolean, JsVal.strictEq, hne]

/-- Without a parameter the argument depends on the truthiness of `saved` only. -/
theorem chatArg_missing (usernameParam saved : JsVal)
    (hu : usernameParam = JsVal.undefined ∨ usernameParam = JsVal.str "") :
    chatArg usernameParam saved =
      if saved.toBoolean then some { path := "/chat/" ++ saved.toJsString }
      else some { path := "/" } := by
  have h1 : JsVal.undefined.toBoolean = false := rfl
  have h2 : (JsVal.str "").toBoolean = false := rfl
  rcases hu with rfl | rfl <;> cases hs : saved.toBoolean <;>
    simp [chatArg, JsVal.strictEq, hs, h1, h2]

theorem username_of_lookup_none (r : RouteLocation)
    (h : r.params.lookup "username" = none) : r.username = JsVal.undefined := by
  simp [RouteLocation.username, h]

theorem username_of_lookup_some (r : RouteLocation) (u : String)
    (h : r.params.lookup "username" = some u) : r.username = JsVal.str u := by
  simp [RouteLocation.username, h]

theorem storedItem_of_lookup_none (ls : List (String × String)) (k : String)
    (h : ls.lookup k = none) : storedItem ls k = JsVal.null := by
  simp [storedItem, h]

theorem storedItem_of_lookup_some (ls : List (String × String)) (k v : String)
    (h : ls.lookup k = some v) : storedItem ls k = JsVal.str v := by
  simp [storedItem, h]

/-- The guard cannot tell a missing `username` entry from an empty one. -/
theorem chatArg_username_absence (r r' : RouteLocation) (saved : JsVal)
    (hu : sameUpToAbsence (r.params.lookup "username") (r'.params.lookup "username")) :
    chatArg r.username saved = chatArg r'.username saved := by
  rcases hu with h | ⟨h, h'⟩
  · simp [RouteLocation.username, h]
  · rw [chatArg_missing _ _ (h.imp (username_of_lookup_none _) (username_of_lookup_some _ _)),
      chatArg_missing _ _ (h'.imp (username_of_lookup_none _) (username_of_lookup_some _ _))]

/-- The guard cannot tell a missing storage key from an empty stored string. -/
theorem chatArg_saved_absence (usernameParam : JsVal) (ls ls' : List (String × String))
    (hs : sameUpToAbsence (ls.lookup "username") (ls'.lookup "username")) :
    chatArg usernameParam (storedItem ls "username")
      = chatArg usernameParam (storedItem ls' "username") := by
  have key : ∀ l : List (String × String), notPresent (l.lookup "username") →
      chatArg usernameParam (storedItem l "username") = chatArg usernameParam JsVal.null := by
    intro l hl
    rcases hl with h | h
    · rw [storedItem_of_lookup_none _ _ h]
    · rw [storedItem_of_lookup_some _ _ _ h]
      simp [chatArg, JsVal.toBoolean]
  rcases hs with h | ⟨h, h'⟩
  · simp [storedItem, h]
  · rw [key ls h, key ls' h']

/-- C1: on a path that begins with the chat prefix, a `username` param that is a
non-empty string makes the guard proceed (a bare `next()`), whatever the saved
identity is. -/
theorem chat_with_param_proceeds (to_ from_ : RouteLocation) (ls : List (String × String))
    (u : String) (hp : startsWith to_.path "/chat" = true)
    (hu : to_.params.lookup "username" = some u) (hne : u ≠ "") :
    decisions (evaluate to_ from_ ls).trace = [GuardDecision.Proceed] := by
  rw [evaluate_chat _ _ _ hp, username_of_lookup_some _ _ hu, chatArg_supplied u hne]
  rfl

theorem chat_with_param_proceeds_witness :
    startsWith "/chat/bob" "/chat" = true ∧
    [("username", "bob")].lookup "username" = some "bob" ∧ "bob" ≠ "" ∧
    decisions (evaluate ⟨"/chat/bob", [("username", "bob")]⟩ ⟨"/", []⟩
      [("username", "carol")]).trace = [GuardDecision.Proceed] :=
  ⟨by decide, by decide, by decide,
    chat_with_param_proceeds ⟨"/chat/bob", [("username", "bob")]⟩ ⟨"/", []⟩
      [("username", "carol")] "bob" (by decide) (by decide) (by decide)⟩

/-- C2: on a path that begins with the chat prefix, with the `username` param
absent or empty and the saved identity absent or empty, the guard redirects to
the login path "/". -/
theorem chat_without_identity_redirects_to_login (to_ from_ : RouteLocation)
    (ls : List (String × String)) (hp : startsWith to_.path "/chat" = true)
    (hu : to_.params.lookup "username" = none ∨ to_.params.lookup "username" = some "")
    (hs : ls.lookup "username" = none ∨ ls.lookup "username" = some "") :
    decisions (evaluate to_ from_ ls).trace = [GuardDecision.RedirectTo "/"] := by
  have hu2 : to_.username = JsVal.undefined ∨ to_.username = JsVal.str "" :=
    hu.imp (username_of_lookup_none _) (username_of_lookup_some _ _)
  rw [evaluate_chat _ _ _ hp, chatArg_missing _ _ hu2]
  rcases hs with h | h
  · rw [storedItem_of_lookup_none _ _ h]; rfl
  · rw [storedItem_of_lookup_some _ _ _ h]; rfl

theorem chat_without_identity_redirects_to_login_witness :
    startsWith "/chat/" "/chat" = true ∧
    ([("username", "")].lookup "username" = none ∨
      [("username", "")].lookup "username" = some "") ∧
    (([] : List (String × String)).lookup "username" = none ∨
      ([] : List (String × String)).lookup "username" = some "") ∧
    decisions (evaluate ⟨"/chat/", [("username", "")]⟩ ⟨"/", []⟩ []).trace
      = [GuardDecision.RedirectTo "/"] :=
  ⟨by decide, Or.inr (by decide), Or.inl rfl,
    chat_without_identity_redirects_to_login ⟨"/chat/", [("username", "")]⟩ ⟨"/", []⟩ []
      (by decide) (Or.inr (by decide)) (Or.inl rfl)⟩

/-- C3: on a path that begins with the chat prefix, with the `username` param
absent or empty and a non-empty saved identity `s`, the guard redirects to
"/chat/" followed by `s` unchanged. -/
theorem chat_without_param_redirects_to_saved (to_ from_ : RouteLocation)
    (ls : List (String × String)) (s : String) (hp : startsWith to_.path "/chat" = true)
    (hu : to_.params.lookup "username" = none ∨ to_.params.lookup "username" = some "")
    (hs : ls.lookup "username" = some s) (hne : s ≠ "") :
    decisions (evaluate to_ from_ ls).trace = [GuardDecision.RedirectTo ("/chat/" ++ s)] := by
  have hu2 : to_.username = JsVal.undefined ∨ to_.username = JsVal.str "" :=
    hu.imp (username_of_lookup_none _) (username_of_lookup_some _ _)
  rw [evaluate_chat _ _ _ hp, chatArg_missing _ _ hu2, storedItem_of_lookup_some _ _ _ hs]
  simp [decisions, GuardDecision.ofArg, JsVal.toBoolean, JsVal.toJsString, hne]

theorem chat_without_param_redirects_to_saved_witness :
    startsWith "/chat" "/chat" = true ∧
    (([] : List (String × String)).lookup "username" = none ∨
      ([] : List (String × String)).lookup "username" = some "") ∧
    [("username", "alice")].lookup "username" = some "alice" ∧ "alice" ≠ "" ∧
    decisions (evaluate ⟨"/chat", []⟩ ⟨"/", []⟩ [("username", "alice")]).trace
      = [GuardDecision.RedirectTo ("/chat/" ++ "alice")] :=
  ⟨by decide, Or.inl rfl, by decide, by decide,
    chat_without_param_redirects_to_saved ⟨"/chat", []⟩ ⟨"/", []⟩ [("username", "alice")]
      "alice" (by decide) (Or.inl rfl) (by decide) (by decide)⟩

/-- C4: on a path that does not begin with the chat prefix the guard proceeds,
whatever the params and the saved identity are. -/
theorem other_path_proceeds (to_ from_ : RouteLocation) (ls : List (String × String))
    (hp : startsWith to_.path "/chat" = false) :
    decisions (evaluate to_ from_ ls).trace = [GuardDecision.Proceed] := by
  rw [evaluate_other _ _ _ hp]
  rfl

theorem other_path_proceeds_witness :
    startsWith "/register" "/chat" = false ∧
    decisions (evaluate ⟨"/register", [("username", "")]⟩ ⟨"/", []⟩
      [("username", "carol")]).trace = [GuardDecision.Proceed] :=
  ⟨by decide,
    other_path_proceeds ⟨"/register", [("username", "")]⟩ ⟨"/", []⟩ [("username", "carol")]
      (by decide)⟩

/-- C5: one run of the guard, from any heap, calls `next` exactly once: the list
of recorded `next` calls grows by exactly one entry. -/
theorem next_called_exactly_once (h : Heap) :
    (decisions (beforeEach.run h).2.trace).length = (decisions h.trace).length + 1 := by
  cases hp : startsWith h.to_.path "/chat"
  · rw [beforeEach_run_other h hp]
    simp [decisions_append, decisions]
  · rw [beforeEach_run_chat h hp]
    simp [decisions_append, decisions]

/-- C6: the guard does not distinguish an absent value from the empty string:
on any path, swapping an absent `username` param with "" and swapping an absent
saved identity with "" (in either direction) leaves the decision unchanged. -/
theorem absence_encoding_irrelevant (path : String) (params params' : List (String × String))
    (from_ : RouteLocation) (ls ls' : List (String × String))
    (hu : sameUpToAbsence (params.lookup "username") (params'.lookup "username"))
    (hs : sameUpToAbsence (ls.lookup "username") (ls'.lookup "username")) :
    decisions (evaluate ⟨path, params⟩ from_ ls).trace
      = decisions (evaluate ⟨path, params'⟩ from_ ls').trace := by
  cases hp : startsWith path "/chat"
  · rw [evaluate_other ⟨path, params⟩ _ _ hp, evaluate_other ⟨path, params'⟩ _ _ hp]
  · rw [evaluate_chat ⟨path, params⟩ _ _ hp, evaluate_chat ⟨path, params'⟩ _ _ hp,
      chatArg_username_absence ⟨path, params⟩ ⟨path, params'⟩ _ hu,
      chatArg_saved_absence _ ls ls' hs]

theorem absence_encoding_irrelevant_witness :
    sameUpToAbsence (([] : List (String × String)).lookup "username")
      ([("username", "")].lookup "username") ∧
    sameUpToAbsence ([("username", "")].lookup "username")
      (([] : List (String × String)).lookup "username") ∧
    decisions (evaluate ⟨"/chat/", []⟩ ⟨"/", []⟩ [("username", "")]).trace
      = decisions (evaluate ⟨"/chat/", [("username", "")]⟩ ⟨"/", []⟩ []).trace :=
  ⟨Or.inr ⟨Or.inl rfl, Or.inr (by decide)⟩, Or.inr ⟨Or.inr (by decide), Or.inl rfl⟩,
    absence_encoding_irrelevant "/chat/" [] [("username", "")] ⟨"/", []⟩
      [("username", "")] [] (Or.inr ⟨Or.inl rfl, Or.inr (by decide)⟩)
      (Or.inr ⟨Or.inr (by decide), Or.inl rfl⟩)⟩

/-- C7: the guard is total: for every target and every storage one evaluation
ends with a single defined decision, which is Proceed or a redirect to a path. -/
theorem guard_total (to_ from_ : RouteLocation) (ls : List (String × String)) :
    ∃ d, decisions (evaluate to_ from_ ls).trace = [d] ∧
      (d = GuardDecision.Proceed ∨ ∃ p, d = GuardDecision.RedirectTo p) := by
  cases hp : startsWith to_.path "/chat"
  · exact ⟨GuardDecision.Proceed, by rw [evaluate_other _ _ _ hp]; rfl, Or.inl rfl⟩
  · rw [evaluate_chat _ _ _ hp]
    cases chatArg to_.username (storedItem ls "username") with
    | none => exact ⟨GuardDecision.Proceed, rfl, Or.inl rfl⟩
    | some r => exact ⟨GuardDecision.RedirectTo r.path, rfl, Or.inr ⟨r.path, rfl⟩⟩

/-- C8: the decision is a function of the target path, the `username` param and
the saved identity only (the `from` route and the rest of the params and of the
storage play no part), and evaluating again on the heap left by a first
evaluation records the same decision a second time. -/
theorem guard_deterministic (to_ to' from_ from' : RouteLocation)
    (ls ls' : List (String × String)) (h1 : to_.path = to'.path)
    (h2 : to_.params.lookup "username" = to'.params.lookup "username")
    (h3 : ls.lookup "username" = ls'.lookup "username") :
    decisions (evaluate to_ from_ ls).trace = decisions (evaluate to' from' ls').trace ∧
    decisions (beforeEach.run (evaluate to_ from_ ls)).2.trace
      = decisions (evaluate to_ from_ ls).trace ++ decisions (evaluate to_ from_ ls).trace := by
  have hu : to_.username = to'.username := by simp [RouteLocation.username, h2]
  have hs : storedItem ls "username" = storedItem ls' "username" := by simp [storedItem, h3]
  cases hp : startsWith to_.path "/chat"
  · have hp' : startsWith to'.path "/chat" = false := h1 ▸ hp
    rw [evaluate_other _ _ _ hp, evaluate_other _ _ _ hp']
    refine ⟨rfl, ?_⟩
    rw [beforeEach_run_other _ hp, decisions_append]
  · have hp' : startsWith to'.path "/chat" = true := h1 ▸ hp
    constructor
    · rw [evaluate_chat _ _ _ hp, evaluate_chat _ _ _ hp', hu, hs]
    · rw [evaluate_chat _ _ _ hp, beforeEach_run_chat _ hp, decisions_append]

theorem guard_deterministic_witness :
    ("/chat" : String) = "/chat" ∧
    [("username", ""), ("room", "a")].lookup "username" = [("username", "")].lookup "username" ∧
    [("username", "carol")].lookup "username"
      = [("theme", "dark"), ("username", "carol")].lookup "username" ∧
    decisions (evaluate ⟨"/chat", [("username", ""), ("room", "a")]⟩ ⟨"/", []⟩
        [("username", "carol")]).trace
      = decisions (evaluate ⟨"/chat", [("username", "")]⟩ ⟨"/register", []⟩
        [("theme", "dark"), ("username", "carol")]).trace ∧
    decisions (beforeEach.run (evaluate ⟨"/chat", [("username", ""), ("room", "a")]⟩ ⟨"/", []⟩
        [("username", "carol")])).2.trace
      = decisions (evaluate ⟨"/chat", [("username", ""), ("room", "a")]⟩ ⟨"/", []⟩
          [("username", "carol")]).trace
        ++ decisions (evaluate ⟨"/chat", [("username", ""), ("room", "a")]⟩ ⟨"/", []⟩
          [("username", "carol")]).trace :=
  ⟨rfl, by decide, by decide,
    guard_deterministic ⟨"/chat", [("username", ""), ("room", "a")]⟩ ⟨"/chat", [("username", "")]⟩
      ⟨"/", []⟩ ⟨"/register", []⟩ [("username", "carol")]
      [("theme", "dark"), ("username", "carol")] rfl (by decide) (by decide)⟩

/-- C9: the guard writes nothing: after a run from any heap the storage is the
storage before the run, and the objects bound to `to` and `from` are unchanged. -/
theorem guard_writes_nothing (h : Heap) :
    (beforeEach.run h).2.localStorage = h.localStorage ∧
    (beforeEach.run h).2.to_ = h.to_ ∧ (beforeEach.run h).2.from_ = h.from_ := by
  cases hp : startsWith h.to_.path "/chat"
  · rw [beforeEach_run_other h hp]
    exact ⟨rfl, rfl, rfl⟩
  · rw [beforeEach_run_chat h hp]
    exact ⟨rfl, rfl, rfl⟩

/-- C10 as stated fails: on the login path "/" the guard reads no storage key. -/
theorem no_storage_read_on_login_path :
    ¬ (reads (evaluate ⟨"/", []⟩ ⟨"/register", []⟩ [("username", "carol")]).trace
        = ["username"]) := by
  decide

/-- C10, amended: an evaluation reads the storage key "username" exactly once
when the target path begins with the chat prefix, and reads nothing otherwise. -/
theorem storage_read_once_on_chat_path (to_ from_ : RouteLocation)
    (ls : List (String × String)) :
    reads (evaluate to_ from_ ls).trace
      = if startsWith to_.path "/chat" then ["username"] else [] := by
  cases hp : startsWith to_.path "/chat"
  · rw [evaluate_other _ _ _ hp]
    rfl
  · rw [evaluate_chat _ _ _ hp]
    rfl

/-- A path built as "/chat/" followed by any string begins with the chat prefix. -/
theorem startsWith_chat_append (s : String) : startsWith ("/chat/" ++ s) "/chat" = true := by
  simp [startsWith, String.data_append]

/-- Without a parameter the guard always hands a location to `next`. -/
theorem chatArg_missing_some (usernameParam saved : JsVal)
    (hu : usernameParam = JsVal.undefined ∨ usernameParam = JsVal.str "") :
    ∃ r, chatArg usernameParam saved = some r := by
  rw [chatArg_missing _ _ hu]
  cases saved.toBoolean <;> simp

/-- C11 as stated fails: the paths "/chat" and "/chatroom" do not match the
pattern `/chat/:username`, yet the guard redirects them instead of proceeding. -/
theorem unmatched_chat_paths_are_redirected :
    matchChatPattern "/chat" = none ∧
    decisions (evaluate ⟨"/chat", []⟩ ⟨"/", []⟩ []).trace = [GuardDecision.RedirectTo "/"] ∧
    matchChatPattern "/chatroom" = none ∧
    decisions (evaluate ⟨"/chatroom", []⟩ ⟨"/", []⟩ [("username", "carol")]).trace
      = [GuardDecision.RedirectTo "/chat/carol"] := by
  decide

/-- C11, amended: the guard proceeds exactly when the path does not begin with
the prefix "/chat" or the `username` param is a non-empty string; every other
target (prefix "/chat", param absent or empty) is redirected, whether or not
its path matches the chat pattern. -/
theorem proceeds_iff_outside_prefix_or_param (to_ from_ : RouteLocation)
    (ls : List (String × String)) :
    decisions (evaluate to_ from_ ls).trace = [GuardDecision.Proceed] ↔
      (startsWith to_.path "/chat" = false ∨
        ∃ u, to_.params.lookup "username" = some u ∧ u ≠ "") := by
  cases hp : startsWith to_.path "/chat"
  · simp [evaluate_other _ _ _ hp, decisions, GuardDecision.ofArg]
  · rw [evaluate_chat _ _ _ hp]
    cases hl : to_.params.lookup "username" with
    | none =>
      obtain ⟨r, hr⟩ := chatArg_missing_some to_.username (storedItem ls "username")
        (Or.inl (username_of_lookup_none _ hl))
      simp [hr, decisions, GuardDecision.ofArg]
    | some u =>
      by_cases hu : u = ""
      · subst hu
        obtain ⟨r, hr⟩ := chatArg_missing_some to_.username (storedItem ls "username")
          (Or.inr (username_of_lookup_some _ _ hl))
        simp [hr, decisions, GuardDecision.ofArg]
      · rw [username_of_lookup_some _ _ hl, chatArg_supplied u hu]
        simp [decisions, GuardDecision.ofArg, hu]

/-- C12: the route table is the list of three routes "/" (login view),
"/register" (register view) and "/chat/:username" (chat view), in this order;
the chat route is the only one with the chat view, its only dynamic segment is
named `username`, no other route has a dynamic segment, and it is the only
route with `props: true`. -/
theorem routes_table :
    routes.map (fun r => (r.path, r.component))
      = [("/", Component.LoginForm), ("/register", Component.RegisterForm),
          ("/chat/:username", Component.ChatView)] ∧
    routes.filter (fun r => decide (r.component = Component.ChatView))
      = [⟨"/chat/:username", Component.ChatView, some true⟩] ∧
    routes.map (fun r => dynamicSegments r.path) = [[], [], ["username"]] ∧
    routes.filter (fun r => decide (r.props = some true))
      = [⟨"/chat/:username", Component.ChatView, some true⟩] := by
  decide

/-- C13 as stated fails: on "/chat/bob" with the param "bob" supplied, the guard
still reads the storage key "username". -/
theorem storage_read_with_param_supplied :
    ¬ (reads (evaluate ⟨"/chat/bob", [("username", "bob")]⟩ ⟨"/", []⟩
        [("username", "carol")]).trace = []) := by
  decide

/-- C13, amended: when the `username` param is a non-empty string the saved
identity is not used: the decision is the same for every storage.  The read
is not skipped: the evaluation reads the key "username" once when the path
begins with the chat prefix, and reads nothing otherwise. -/
theorem storage_unused_with_param_supplied (to_ from_ : RouteLocation)
    (ls ls' : List (String × String)) (u : String)
    (hu : to_.params.lookup "username" = some u) (hne : u ≠ "") :
    decisions (evaluate to_ from_ ls).trace = decisions (evaluate to_ from_ ls').trace ∧
    reads (evaluate to_ from_ ls).trace
      = if startsWith to_.path "/chat" then ["username"] else [] := by
  cases hp : startsWith to_.path "/chat"
  · rw [evaluate_other _ _ _ hp, evaluate_other _ _ _ hp]
    exact ⟨rfl, rfl⟩
  · rw [evaluate_chat _ _ _ hp, evaluate_chat _ _ _ hp, username_of_lookup_some _ _ hu,
      chatArg_supplied u hne, chatArg_supplied u hne]
    exact ⟨rfl, rfl⟩

theorem storage_unused_with_param_supplied_witness :
    [("username", "bob")].lookup "username" = some "bob" ∧ "bob" ≠ "" ∧
    decisions (evaluate ⟨"/chat/bob", [("username", "bob")]⟩ ⟨"/", []⟩ []).trace
      = decisions (evaluate ⟨"/chat/bob", [("username", "bob")]⟩ ⟨"/", []⟩
          [("username", "carol")]).trace ∧
    reads (evaluate ⟨"/chat/bob", [("username", "bob")]⟩ ⟨"/", []⟩ []).trace
      = if startsWith "/chat/bob" "/chat" then ["username"] else [] :=
  ⟨by decide, by decide,
    storage_unused_with_param_supplied ⟨"/chat/bob", [("username", "bob")]⟩ ⟨"/", []⟩ []
      [("username", "carol")] "bob" (by decide) (by decide)⟩

/-- C14: the targets of the guard's redirects are let through: (i) the target
"/" without params proceeds, and (ii) for a non-empty identity `s` the target
"/chat/" followed by `s`, with `username` param `s`, proceeds; both hold under
every storage, in particular under the one that produced the redirect. -/
theorem redirect_targets_proceed (from_ : RouteLocation) (ls params : List (String × String))
    (s : String) (hne : s ≠ "") (hu : params.lookup "username" = some s) :
    decisions (evaluate ⟨"/", []⟩ from_ ls).trace = [GuardDecision.Proceed] ∧
    decisions (evaluate ⟨"/chat/" ++ s, params⟩ from_ ls).trace = [GuardDecision.Proceed] := by
  constructor
  · rw [evaluate_other ⟨"/", []⟩ _ _ (by decide)]
    rfl
  · rw [evaluate_chat ⟨"/chat/" ++ s, params⟩ _ _ (startsWith_chat_append s),
      username_of_lookup_some ⟨"/chat/" ++ s, params⟩ s hu, chatArg_supplied s hne]
    rfl

theorem redirect_targets_proceed_witness :
    "carol" ≠ "" ∧ [("username", "carol")].lookup "username" = some "carol" ∧
    decisions (evaluate ⟨"/", []⟩ ⟨"/chat", []⟩ [("username", "carol")]).trace
      = [GuardDecision.Proceed] ∧
    decisions (evaluate ⟨"/chat/" ++ "carol", [("username", "carol")]⟩ ⟨"/chat", []⟩
      [("username", "carol")]).trace = [GuardDecision.Proceed] :=
  ⟨by decide, by decide,
    redirect_targets_proceed ⟨"/chat", []⟩ [("username", "carol")] [("username", "carol")]
      "carol" (by decide) (by decide)⟩

end Router
